import Mathlib

/-!
Verification of the candelyabr candlestick-chart viewport engine.

The definitions below are a shallow embedding of the TypeScript sources:
* `CandlesCanvas` (viewport state, clamping, zooming, time-range lookup,
  wheel / mouse interaction handlers, per-frame price-range computation);
* the live-kline merge callback from `App.tsx`;
* `aggregateToOneSecondKlines` from `services/binance.ts`.

JavaScript numbers are modelled as `ℚ` (prices, pixels) and `ℤ`
(indices, timestamps, counts).  `Math.round` is `jsRound`
(round half toward +infinity), `Math.floor` is `Int.floor` on `ℚ`,
and the stable `Array.prototype.sort` is `List.insertionSort`.
-/

section

-- Batteries marks the `Rat` field operations `@[irreducible]`, which
-- blocks `decide` on concrete rational arithmetic during elaboration.
-- Restore the default transparency for this file; kernel checking is
-- unaffected.
set_option allowUnsafeReducibility true
attribute [local semireducible] Rat.add Rat.sub Rat.mul Rat.div Rat.inv Rat.neg

/-- OHLC bar, mirroring the `Kline` interface of `services/binance.ts`.
The `open` field is renamed `openP` because `open` is a Lean keyword. -/
structure Kline where
  openTime : ℤ
  openP : ℚ
  high : ℚ
  low : ℚ
  close : ℚ
  volume : ℚ
  closeTime : ℤ
  quoteAssetVolume : ℚ
  numberOfTrades : ℤ
  takerBuyBaseVolume : ℚ
  takerBuyQuoteVolume : ℚ
  isClosed : Bool
deriving DecidableEq, Repr

/-- Raw trade print, mirroring the `AggTrade` interface of `services/binance.ts`. -/
structure AggTrade where
  aggId : ℤ
  price : ℚ
  quantity : ℚ
  timestamp : ℤ
  isBuyerMaker : Bool
deriving DecidableEq, Repr

/-- The mutable refs of `CandlesCanvasImpl` gathered into one record
(startIndexRef, visibleCountRef, isDraggingRef, lastXRef, lastMouseXRef,
lastMouseYRef, yMinRef, yMaxRef, autoYRef, isResizingYRef and the five
resize anchors). -/
structure ChartState where
  startIndex : ℤ
  visibleCount : ℤ
  isDragging : Bool
  lastX : ℚ
  lastMouseX : ℚ
  lastMouseY : ℚ
  yMin : Option ℚ
  yMax : Option ℚ
  autoY : Bool
  isResizingY : Bool
  resizeAnchorY : ℚ
  resizeAnchorPrice : ℚ
  resizeInitialRange : ℚ
  resizeStartMouseY : ℚ
  resizeAnchorTopRatio : ℚ
deriving DecidableEq, Repr

/-- Fixed layout paddings of `CandlesCanvasImpl` (part_000 lines 69-72). -/
def PADDING_LEFT : ℚ := 10

def PADDING_RIGHT : ℚ := 60

def PADDING_TOP : ℚ := 10

def PADDING_BOTTOM : ℚ := 24

/-- JavaScript `Math.round`: round half toward positive infinity. -/
def jsRound (q : ℚ) : ℤ := ⌊q + 1/2⌋

/-- JavaScript `Math.max(...)` over a list (never applied to `[]` by the
embedded code paths, which guard on emptiness first; `0` is a dummy). -/
def listMaxQ : List ℚ → ℚ
  | [] => 0
  | [x] => x
  | x :: xs => max x (listMaxQ xs)

/-- JavaScript `Math.min(...)` over a list (same emptiness caveat). -/
def listMinQ : List ℚ → ℚ
  | [] => 0
  | [x] => x
  | x :: xs => min x (listMinQ xs)

/-- `data.slice(startIndex, min(data.length, startIndex + visibleCount))`
for a non-negative `startIndex`, as used by `draw` and the handlers. -/
def viewSlice (data : List Kline) (startIndex visibleCount : ℤ) : List Kline :=
  let endIndex : ℤ := min (data.length : ℤ) (startIndex + visibleCount)
  (data.drop startIndex.toNat).take (endIndex - startIndex).toNat

/-- `clampViewportLocal` (part_000 lines 74-84):
`visible = max(10, min(data.length, visibleCount))`;
`startIndex = max(0, min(data.length - visible, startIndex))`. -/
def clampViewportLocal (data : List Kline) (st : ChartState) : ChartState :=
  let visible : ℤ := max 10 (min (data.length : ℤ) st.visibleCount)
  { st with
    visibleCount := visible
    startIndex := max 0 (min ((data.length : ℤ) - visible) st.startIndex) }

/-- `performZoomGlobal` (part_000 lines 86-123).  `width` is the canvas
width prop; `anchorX = none` models the `undefined` anchor (center). -/
def performZoomGlobal (width : ℚ) (data : List Kline) (st : ChartState)
    (scale : ℚ) (anchorX : Option ℚ) : ChartState :=
  let plotWidth := width - PADDING_LEFT - PADDING_RIGHT
  let oldVisible := st.visibleCount
  let candleGap : ℚ := 2
  let oldCandleWidth : ℚ :=
    max 1 (((⌊(width - PADDING_LEFT - PADDING_RIGHT) / (oldVisible : ℚ)⌋ : ℤ) : ℚ) - candleGap)
  let oldCandleSpan := oldCandleWidth + candleGap
  let leftPad := PADDING_LEFT
  let anchor :=
    max leftPad (min (width - PADDING_RIGHT)
      (anchorX.getD (leftPad + ((⌊plotWidth / 2⌋ : ℤ) : ℚ))))
  let idxAtAnchor : ℤ := st.startIndex + jsRound ((anchor - leftPad) / oldCandleSpan)
  let targetVisible : ℤ := jsRound ((oldVisible : ℚ) * scale)
  let newVisible : ℤ := max 10 (min 5000 targetVisible)
  let newCandleWidth : ℚ :=
    max 1 (((⌊(width - PADDING_LEFT - PADDING_RIGHT) / (newVisible : ℚ)⌋ : ℤ) : ℚ) - candleGap)
  let newCandleSpan := newCandleWidth + candleGap
  let newStart : ℤ := jsRound ((idxAtAnchor : ℚ) - (anchor - leftPad) / newCandleSpan)
  clampViewportLocal data { st with visibleCount := newVisible, startIndex := newStart }

/-- `data[i].openTime` for an in-range index (out-of-range reads never occur
in the embedded binary searches; `0` is a dummy). -/
def openTimeAt (data : List Kline) (i : ℤ) : ℤ :=
  ((data.get? i.toNat).map Kline.openTime).getD 0

/-- One `while (lo <= hi)` binary-search loop of `setRangeByTime`
(part_000 lines 145-149 and 154-158), with the branch condition abstracted
as `advance mid` and structural fuel (`data.length + 1` steps always
suffice because `hi + 1 - lo` strictly decreases). -/
def bisectLoop (advance : ℤ → Bool) : ℕ → ℤ → ℤ → ℤ
  | 0, lo, _ => lo
  | fuel + 1, lo, hi =>
    if lo ≤ hi then
      let mid := (lo + hi) / 2
      if advance mid then bisectLoop advance fuel (mid + 1) hi
      else bisectLoop advance fuel lo (mid - 1)
    else lo

/-- `setRangeByTime` (part_000 lines 137-167). -/
def setRangeByTime (data : List Kline) (st : ChartState) (startMs endMs : ℤ) : ChartState :=
  if data.length = 0 then st
  else if endMs ≤ startMs then st
  else
    let n : ℤ := data.length
    let lo1 := bisectLoop (fun mid => decide (openTimeAt data mid < startMs))
      (data.length + 1) 0 (n - 1)
    let startIdx := min (max 0 lo1) (n - 1)
    let lo2 := bisectLoop (fun mid => decide (openTimeAt data mid ≤ endMs))
      (data.length + 1) 0 (n - 1)
    let endIdx := min (max 0 (lo2 - 1)) (n - 1)
    let count := max 10 (endIdx - startIdx + 1)
    { st with
      visibleCount := count
      startIndex := max 0 (min startIdx (max 0 (n - count))) }

/-- `scrollToEnd` (part_000 lines 168-172). -/
def scrollToEnd (data : List Kline) (st : ChartState) : ChartState :=
  { st with startIndex := max 0 ((data.length : ℤ) - st.visibleCount) }

/-- The `KlineWebSocket` `onUpdate` callback of `App.tsx` (lines 144-157):
replace the last bar on equal `openTime`, otherwise append and drop the
oldest entry once the buffer exceeds 2000 bars. -/
def mergeLiveKline (prev : List Kline) (k : Kline) : List Kline :=
  match prev.getLast? with
  | none => [k]
  | some last =>
    if k.openTime = last.openTime then prev.dropLast ++ [k]
    else
      let next := prev ++ [k]
      if 2000 < next.length then next.tail else next

/-- `Math.floor(t.timestamp / 1000) * 1000` (binance.ts line 279). -/
def tradeSec (t : AggTrade) : ℤ := t.timestamp.fdiv 1000 * 1000

/-- The trades of one 1-second bucket, in timestamp order: the `Map`
grouping keeps input order, then `arr.sort((a, b) => a.timestamp - b.timestamp)`
sorts stably (binance.ts lines 277-288). -/
def bucketTrades (trades : List AggTrade) (s : ℤ) : List AggTrade :=
  List.insertionSort (fun a b => a.timestamp ≤ b.timestamp)
    (trades.filter (fun t => tradeSec t = s))

/-- The distinct bucket keys in ascending order
(`Array.from(bySecond.keys()).sort((a, b) => a - b)`, binance.ts line 284). -/
def bucketKeys (trades : List AggTrade) : List ℤ :=
  List.insertionSort (fun a b => a ≤ b) ((trades.map tradeSec).dedup)

/-- The synthetic 1-second bar built for bucket `s`
(binance.ts lines 286-311). -/
def mkBucketKline (s : ℤ) (prevClose : Option ℚ) (arr : List AggTrade) : Kline :=
  { openTime := s
    openP := prevClose.getD ((arr.map AggTrade.price).headD 0)
    high := listMaxQ (arr.map AggTrade.price)
    low := listMinQ (arr.map AggTrade.price)
    close := (arr.map AggTrade.price).getLastD 0
    volume := (arr.map AggTrade.quantity).sum
    closeTime := s + 999
    quoteAssetVolume := 0
    numberOfTrades := arr.length
    takerBuyBaseVolume := 0
    takerBuyQuoteVolume := 0
    isClosed := true }

/-- The `for (const s of seconds)` loop of `aggregateToOneSecondKlines`,
threading `prevClose` through the buckets. -/
def aggLoop (trades : List AggTrade) : Option ℚ → List ℤ → List Kline
  | _, [] => []
  | prevClose, s :: rest =>
    let k := mkBucketKline s prevClose (bucketTrades trades s)
    k :: aggLoop trades (some k.close) rest

/-- `aggregateToOneSecondKlines` (binance.ts lines 275-313). -/
def aggregateToOneSecondKlines (trades : List AggTrade) : List Kline :=
  if trades.length = 0 then [] else aggLoop trades none (bucketKeys trades)

/-- The visible slice taken by `draw` (part_000 lines 217-223):
`visibleCount` re-clamped locally, then `data.slice(startIndex, endIndex)`. -/
def drawViewData (data : List Kline) (st : ChartState) : List Kline :=
  viewSlice data st.startIndex (max 10 (min (data.length : ℤ) st.visibleCount))

/-- The price-range computation of `draw` (part_000 lines 225-246):
data extremes of the visible slice, manual range with epsilon bump when
`!autoY && yMin != null && yMax != null`, otherwise auto range with
5 percent padding (`|| 1` when the product is zero). -/
def drawPriceRange (data : List Kline) (st : ChartState) : ℚ × ℚ :=
  let viewData := drawViewData data st
  let dataMax := listMaxQ (viewData.map Kline.high)
  let dataMin := listMinQ (viewData.map Kline.low)
  if st.autoY = false ∧ st.yMin ≠ none ∧ st.yMax ≠ none then
    let ymin := st.yMin.getD 0
    let ymax := st.yMax.getD 0
    if ymax ≤ ymin then (ymin, ymin + 1/1000000000) else (ymin, ymax)
  else
    let pad := if (dataMax - dataMin) * (5/100) = 0 then 1 else (dataMax - dataMin) * (5/100)
    (dataMin - pad, dataMax + pad)

/-- Wheel event fields read by `handleWheel`. -/
structure WheelEvent where
  deltaY : ℚ
  altKey : Bool
  shiftKey : Bool
  ctrlKey : Bool
  offsetX : ℚ
  offsetY : ℚ
deriving DecidableEq, Repr

/-- Mouse event fields read by the pointer handlers. -/
structure MouseEvent where
  clientX : ℚ
  clientY : ℚ
deriving DecidableEq, Repr

/-- `handleWheel` (part_000 lines 413-461).  The alt branch zooms the
price range around the cursor; the plain branch delegates to
`performZoomGlobal` with the shift / ctrl factor modifiers. -/
def handleWheel (width height : ℚ) (data : List Kline) (ev : WheelEvent)
    (st : ChartState) : ChartState :=
  let st1 := { st with lastMouseX := ev.offsetX, lastMouseY := ev.offsetY }
  let zoomOut := decide (0 < ev.deltaY)
  if ev.altKey then
    let plotHeight := height - PADDING_TOP - PADDING_BOTTOM
    let yRel := max 0 (min plotHeight (ev.offsetY - PADDING_TOP))
    let visibleCount : ℤ := max 10 (min (data.length : ℤ) st1.visibleCount)
    let viewData := viewSlice data st1.startIndex visibleCount
    let dataMax := listMaxQ (viewData.map Kline.high)
    let dataMin := listMinQ (viewData.map Kline.low)
    let minPrice := st1.yMin.getD dataMin
    let maxPrice0 := st1.yMax.getD dataMax
    let maxPrice := if maxPrice0 ≤ minPrice then minPrice + 1/1000000000 else maxPrice0
    let priceAtCursor :=
      maxPrice - (yRel / (if plotHeight = 0 then 1 else plotHeight)) * (maxPrice - minPrice)
    let vScale : ℚ := if zoomOut then 23/20 else 17/20
    let newRange := (maxPrice - minPrice) * vScale
    let ratioTop :=
      (maxPrice - priceAtCursor) / (if maxPrice - minPrice = 0 then 1 else maxPrice - minPrice)
    let ratioBottom := 1 - ratioTop
    { st1 with
      autoY := false
      yMin := some (priceAtCursor - newRange * ratioBottom)
      yMax := some (priceAtCursor + newRange * ratioTop) }
  else
    let scale : ℚ := if zoomOut then 23/20 else 17/20
    let modifier : ℚ := if ev.shiftKey then 27/20 else if ev.ctrlKey then 9/10 else 1
    performZoomGlobal width data st1 (scale * modifier) (some st1.lastMouseX)

/-- `handleMouseDown` (part_000 lines 463-508).  `rectLeft` / `rectTop`
are the canvas bounding-rect offsets.  A press inside the right
price-axis gutter (with a non-empty visible slice) enters ResizingY and
captures the session anchors. -/
def handleMouseDown (width height : ℚ) (data : List Kline)
    (rectLeft rectTop : ℚ) (ev : MouseEvent) (st : ChartState) : ChartState :=
  let st1 := { st with isDragging := true, lastX := ev.clientX, lastMouseY := ev.clientY }
  let x := ev.clientX - rectLeft
  let y := ev.clientY - rectTop
  if width - PADDING_RIGHT ≤ x then
    let plotHeight := height - PADDING_TOP - PADDING_BOTTOM
    let visibleCount : ℤ := max 10 (min (data.length : ℤ) st1.visibleCount)
    let viewData := viewSlice data st1.startIndex visibleCount
    if viewData.length ≠ 0 then
      let dataMax := listMaxQ (viewData.map Kline.high)
      let dataMin := listMinQ (viewData.map Kline.low)
      let minPrice := st1.yMin.getD dataMin
      let maxPrice0 := st1.yMax.getD dataMax
      let maxPrice := if maxPrice0 ≤ minPrice then minPrice + 1/1000000000 else maxPrice0
      let anchorY := max 0 (min plotHeight (y - PADDING_TOP))
      let priceAtCursor :=
        maxPrice - (anchorY / (if plotHeight = 0 then 1 else plotHeight)) * (maxPrice - minPrice)
      let range := if maxPrice - minPrice = 0 then 1 else maxPrice - minPrice
      { st1 with
        autoY := false
        isResizingY := true
        resizeStartMouseY := ev.clientY
        resizeAnchorY := anchorY
        resizeInitialRange := maxPrice - minPrice
        resizeAnchorPrice := priceAtCursor
        resizeAnchorTopRatio := (maxPrice - priceAtCursor) / range }
    else st1
  else st1

/-- `handleMouseMove` (part_000 lines 510-568).  `expf` abstracts
`Math.exp`; the transcendental value only feeds the stored Y-range, never
the viewport indices.  ResizingY recomputes the range from the
session-start anchors; otherwise the drag pans vertically (Y shift) and
horizontally (index shift, then clamp). -/
def handleMouseMove (width height : ℚ) (data : List Kline) (expf : ℚ → ℚ)
    (ev : MouseEvent) (st : ChartState) : ChartState :=
  if st.isDragging = false then st
  else
    let dx := ev.clientX - st.lastX
    let dy := ev.clientY - (if st.lastMouseY = 0 then ev.clientY else st.lastMouseY)
    let st1 := { st with lastX := ev.clientX, lastMouseY := ev.clientY }
    if st1.isResizingY then
      let dyTotal := ev.clientY - st1.resizeStartMouseY
      let k := expf (dyTotal * (2/1000))
      let newRange := max (1/1000000000) (st1.resizeInitialRange * k)
      let ratioTop := st1.resizeAnchorTopRatio
      let ratioBottom := 1 - ratioTop
      { st1 with
        yMin := some (st1.resizeAnchorPrice - newRange * ratioBottom)
        yMax := some (st1.resizeAnchorPrice + newRange * ratioTop) }
    else
      let st2 :=
        if dy ≠ 0 then
          let visibleCount : ℤ := max 10 (min (data.length : ℤ) st1.visibleCount)
          let viewData := viewSlice data st1.startIndex visibleCount
          let dataMax := listMaxQ (viewData.map Kline.high)
          let dataMin := listMinQ (viewData.map Kline.low)
          let minPrice := st1.yMin.getD dataMin
          let maxPrice0 := st1.yMax.getD dataMax
          let maxPrice := if maxPrice0 ≤ minPrice then minPrice + 1/1000000000 else maxPrice0
          let plotHeight := height - PADDING_TOP - PADDING_BOTTOM
          let pricePerPx := (maxPrice - minPrice) / (if plotHeight = 0 then 1 else plotHeight)
          let deltaPrice := dy * pricePerPx
          { st1 with
            autoY := false
            yMin := some (st1.yMin.getD minPrice + deltaPrice)
            yMax := some (st1.yMax.getD maxPrice + deltaPrice) }
        else st1
      let candleGap : ℚ := 2
      let candleWidth : ℚ :=
        max 1 (((⌊(width - PADDING_LEFT - PADDING_RIGHT) / (st2.visibleCount : ℚ)⌋ : ℤ) : ℚ) - candleGap)
      let perCandle := max 1 (candleWidth + candleGap)
      let deltaCandles := jsRound (-dx / perCandle)
      if deltaCandles ≠ 0 then
        clampViewportLocal data { st2 with startIndex := st2.startIndex + deltaCandles }
      else st2

/-- The bar index rendered under pixel `px`: `draw` places slot `idx` at
`x = leftPad + idx * (candleWidth + 2)` (part_000 lines 308-323), so the
slot under `px` is `round((px - leftPad) / span)`, the same formula the
zoom code uses for its anchor (line 104). -/
def barIndexAtPixel (width : ℚ) (data : List Kline) (st : ChartState) (px : ℚ) : ℤ :=
  let visibleCount : ℤ := max 10 (min (data.length : ℤ) st.visibleCount)
  let candleWidth : ℚ :=
    max 1 (((⌊(width - PADDING_LEFT - PADDING_RIGHT) / (visibleCount : ℚ)⌋ : ℤ) : ℚ) - 2)
  st.startIndex + jsRound ((px - PADDING_LEFT) / (candleWidth + 2))

/-- The initial ref values of `CandlesCanvasImpl` (part_000 lines 49-66):
`visibleCount = min(120, max(20, data.length))`, everything else zeroed,
`autoY = true`, `resizeAnchorTopRatio = 0.5`. -/
def initialState (data : List Kline) : ChartState :=
  { startIndex := 0
    visibleCount := min 120 (max 20 (data.length : ℤ))
    isDragging := false
    lastX := 0
    lastMouseX := 0
    lastMouseY := 0
    yMin := none
    yMax := none
    autoY := true
    isResizingY := false
    resizeAnchorY := 0
    resizeAnchorPrice := 0
    resizeInitialRange := 0
    resizeStartMouseY := 0
    resizeAnchorTopRatio := 1/2 }

/-! ## Concrete fixtures -/

/-- A plain bar with the given `openTime`, for fixtures whose prices are
irrelevant. -/
def mkBar (t : ℤ) : Kline :=
  { openTime := t, openP := 1, high := 1, low := 1, close := 1, volume := 0,
    closeTime := t + 999, quoteAssetVolume := 0, numberOfTrades := 1,
    takerBuyBaseVolume := 0, takerBuyQuoteVolume := 0, isClosed := true }

/-- Bars with openTime 100, 200, 300, 400 (spec range-lookup example). -/
def data4 : List Kline := [mkBar 100, mkBar 200, mkBar 300, mkBar 400]

/-- A 5-bar sequence (shorter than the minimum visible count of 10). -/
def data5 : List Kline := List.replicate 5 (mkBar 0)

/-- A 12-bar sequence. -/
def data12 : List Kline := List.replicate 12 (mkBar 0)

/-- Ascending `openTime` ordering of a bar sequence (the Bar Sequence
invariant of the spec's data model), as an executable predicate. -/
def ascBool : List Kline → Bool
  | [] => true
  | [_] => true
  | a :: b :: rest => decide (a.openTime < b.openTime) && ascBool (b :: rest)

/-- Executable form of the ascending-openTime invariant. -/
def ascendingBars (l : List Kline) : Prop := ascBool l = true

instance (l : List Kline) : Decidable (ascendingBars l) :=
  inferInstanceAs (Decidable (ascBool l = true))

/-- Two ascending bars, fixture for the out-of-order merge. -/
def barsAsc : List Kline := [mkBar 100, mkBar 200]

/-- A bar with prescribed high and low. -/
def barHL (t : ℤ) (h l : ℚ) : Kline := { mkBar t with high := h, low := l }

/-- Bars with highs [10, 12, 9] and lows [8, 7, 11] (spec example). -/
def data3 : List Kline := [barHL 0 10 8, barHL 1000 12 7, barHL 2000 9 11]

/-- Viewport showing all of `data3` in auto-Y mode. -/
def st3 : ChartState := { initialState data3 with startIndex := 0, visibleCount := 3 }

/-- 200 bars (prices irrelevant; zooming only reads the length). -/
def data200 : List Kline := List.replicate 200 (mkBar 0)

/-- Viewport on `data200`: startIndex 100, visibleCount 100. -/
def stZoom : ChartState := { initialState data200 with startIndex := 100, visibleCount := 100 }

/-- 30 bars. -/
def data30 : List Kline := List.replicate 30 (mkBar 0)

/-- An alt-wheel event (vertical zoom gesture). -/
def wheelAltEv : WheelEvent :=
  { deltaY := 1, altKey := true, shiftKey := false, ctrlKey := false,
    offsetX := 100, offsetY := 100 }

/-- A pointer press inside the right price-axis gutter of a 900px canvas. -/
def downEv : MouseEvent := { clientX := 850, clientY := 50 }

/-- A state mid-drag in ResizingY mode. -/
def stDrag : ChartState := { initialState data4 with isDragging := true, isResizingY := true }

/-- The spec example trades: ts 1000, 1500, 1999; price 10, 11, 9;
qty 1, 2, 3. -/
def tr3 : List AggTrade :=
  [ { aggId := 1, price := 10, quantity := 1, timestamp := 1000, isBuyerMaker := false },
    { aggId := 2, price := 11, quantity := 2, timestamp := 1500, isBuyerMaker := false },
    { aggId := 3, price := 9, quantity := 3, timestamp := 1999, isBuyerMaker := false } ]

/-- The single bucket the spec example must produce. -/
def k1000 : Kline :=
  { openTime := 1000, openP := 10, high := 11, low := 9, close := 9, volume := 6,
    closeTime := 1999, quoteAssetVolume := 0, numberOfTrades := 3,
    takerBuyBaseVolume := 0, takerBuyQuoteVolume := 0, isClosed := true }

/-- Two trades one second apart (two buckets). -/
def tr2 : List AggTrade :=
  [ { aggId := 1, price := 10, quantity := 1, timestamp := 1000, isBuyerMaker := false },
    { aggId := 2, price := 20, quantity := 1, timestamp := 2100, isBuyerMaker := false } ]

/-- First bucket of `tr2`. -/
def k1000b : Kline :=
  { openTime := 1000, openP := 10, high := 10, low := 10, close := 10, volume := 1,
    closeTime := 1999, quoteAssetVolume := 0, numberOfTrades := 1,
    takerBuyBaseVolume := 0, takerBuyQuoteVolume := 0, isClosed := true }

/-- Second bucket of `tr2`: its open is the first bucket close. -/
def k2000b : Kline :=
  { openTime := 2000, openP := 10, high := 20, low := 20, close := 20, volume := 1,
    closeTime := 2999, quoteAssetVolume := 0, numberOfTrades := 1,
    takerBuyBaseVolume := 0, takerBuyQuoteVolume := 0, isClosed := true }

set_option maxRecDepth 4000

/-! ## C1: `setRangeByTime(150, 350)` on openTimes [100, 200, 300, 400] -/

/-- C1 (counterexample).  On bars with openTime [100, 200, 300, 400],
`setRangeByTime(150, 350)` does NOT produce startIndex = 1 and
visibleCount = 2: the `max(10, ...)` floor forces visibleCount = 10 and
the subsequent clamp pushes startIndex to 0. -/
theorem setRangeByTime_example_claim_false :
    ¬ ((setRangeByTime data4 (initialState data4) 150 350).startIndex = 1 ∧
       (setRangeByTime data4 (initialState data4) 150 350).visibleCount = 2) := by
  decide

/-- C1 (amended).  On bars with openTime [100, 200, 300, 400],
`setRangeByTime(150, 350)` finds the covering indices startIdx = 1 and
endIdx = 2 (the bars at 200 and 300), but sets
visibleCount = max(10, 2) = 10 and then clamps
startIndex = max(0, min(1, max(0, 4 - 10))) = 0. -/
theorem setRangeByTime_example_eval :
    min (max 0 (bisectLoop (fun mid => decide (openTimeAt data4 mid < 150)) 5 0 3)) 3 = 1 ∧
    min (max 0 (bisectLoop (fun mid => decide (openTimeAt data4 mid ≤ 350)) 5 0 3 - 1)) 3 = 2 ∧
    (setRangeByTime data4 (initialState data4) 150 350).startIndex = 0 ∧
    (setRangeByTime data4 (initialState data4) 150 350).visibleCount = 10 := by
  decide

/-! ## C2: clamp invariant -/

/-- C2 (counterexample).  For a 5-bar sequence, the clamp sets
`effectiveVisible = max(10, min(5, v)) = 10`, which violates the claimed
upper bound `min(L, 5000) = 5`. -/
theorem clampViewport_min_bound_fails :
    ¬ ((clampViewportLocal data5 { initialState data5 with visibleCount := 3 }).visibleCount
        ≤ min (data5.length : ℤ) 5000) := by
  decide

/-- C2 (amended).  After the clamp: `10 ≤ effectiveVisible ≤ max(10, L)`
and `0 ≤ startIndex ≤ max(0, L - effectiveVisible)`; the claimed bound
`effectiveVisible ≤ min(L, 5000)` holds only under the extra assumptions
`10 ≤ L` and requested `v ≤ 5000` (the clamp itself has no 5000 cap). -/
theorem clampViewport_invariant (data : List Kline) (st : ChartState) :
    10 ≤ (clampViewportLocal data st).visibleCount ∧
    (clampViewportLocal data st).visibleCount ≤ max 10 (data.length : ℤ) ∧
    0 ≤ (clampViewportLocal data st).startIndex ∧
    (clampViewportLocal data st).startIndex
      ≤ max 0 ((data.length : ℤ) - (clampViewportLocal data st).visibleCount) ∧
    (10 ≤ (data.length : ℤ) → st.visibleCount ≤ 5000 →
      (clampViewportLocal data st).visibleCount ≤ min (data.length : ℤ) 5000) := by
  simp only [clampViewportLocal]
  refine ⟨?_, ?_, ?_, ?_, ?_⟩ <;> omega

/-- C2 witness: the amended invariant applied to a 12-bar sequence with a
requested visibleCount of 30. -/
theorem clampViewport_invariant_witness :
    (clampViewportLocal data12 { initialState data12 with visibleCount := 30 }).visibleCount
      ≤ min (data12.length : ℤ) 5000 :=
  (clampViewport_invariant data12 { initialState data12 with visibleCount := 30 }).2.2.2.2
    (by decide) (by decide)

/-! ## C9: `setRangeByTime` no-op on invalid input -/

/-- C9.  On an empty sequence or a degenerate time interval
(`endMs ≤ startMs`), `setRangeByTime` is a silent no-op: the whole state
(startIndex, visibleCount, Y-range) is returned unchanged.  Totality of
the embedded function reflects that the guarded code path never throws. -/
theorem setRangeByTime_noop (data : List Kline) (st : ChartState) (startMs endMs : ℤ)
    (h : data = [] ∨ endMs ≤ startMs) :
    setRangeByTime data st startMs endMs = st := by
  unfold setRangeByTime
  rcases h with h | h
  · subst h; simp
  · split_ifs with h1 <;> rfl

/-- C9 witness: no-op on the empty sequence and on a reversed interval. -/
theorem setRangeByTime_noop_witness :
    setRangeByTime [] (initialState []) 0 100 = initialState [] ∧
    setRangeByTime data4 (initialState data4) 350 150 = initialState data4 :=
  ⟨setRangeByTime_noop [] (initialState []) 0 100 (Or.inl rfl),
   setRangeByTime_noop data4 (initialState data4) 350 150 (Or.inr (by norm_num))⟩

/-! ## C5: `setRangeByTime` idempotent -/

/-- C5.  Two identical `setRangeByTime` calls yield the same state as
one: the computed indices depend only on the (unchanged) data and the
arguments, never on the previous viewport. -/
theorem setRangeByTime_idempotent (data : List Kline) (st : ChartState) (startMs endMs : ℤ) :
    setRangeByTime data (setRangeByTime data st startMs endMs) startMs endMs
      = setRangeByTime data st startMs endMs := by
  unfold setRangeByTime
  split_ifs <;> rfl

/-! ## C4 and C10: the live kline merge -/

/-- Unfolding of the merge on an empty buffer. -/
theorem mergeLiveKline_nil (prev : List Kline) (k : Kline)
    (hp : prev.getLast? = none) : mergeLiveKline prev k = [k] := by
  unfold mergeLiveKline
  rw [hp]

/-- Unfolding of the merge on a non-empty buffer with last bar `last`. -/
theorem mergeLiveKline_eq (prev : List Kline) (k last : Kline)
    (hp : prev.getLast? = some last) :
    mergeLiveKline prev k =
      if k.openTime = last.openTime then prev.dropLast ++ [k]
      else if 2000 < (prev ++ [k]).length then (prev ++ [k]).tail
      else prev ++ [k] := by
  unfold mergeLiveKline
  rw [hp]

/-- C4.  The live merge: (i) preserves the 2000-entry cap; (ii) replaces
the last bar when the update's openTime equals the last bar's; (iii)
appends when strictly greater (buffer below the cap); (iv) at the cap,
appends and drops the oldest entry. -/
theorem mergeLiveKline_spec (prev : List Kline) (k : Kline) :
    (prev.length ≤ 2000 → (mergeLiveKline prev k).length ≤ 2000) ∧
    (∀ last, prev.getLast? = some last → k.openTime = last.openTime →
      mergeLiveKline prev k = prev.dropLast ++ [k]) ∧
    (∀ last, prev.getLast? = some last → last.openTime < k.openTime →
      prev.length < 2000 → mergeLiveKline prev k = prev ++ [k]) ∧
    (∀ last, prev.getLast? = some last → last.openTime < k.openTime →
      prev.length = 2000 → mergeLiveKline prev k = prev.tail ++ [k]) := by
  cases hp : prev.getLast? with
  | none =>
    rw [mergeLiveKline_nil prev k hp]
    refine ⟨fun _ => by simp, ?_, ?_, ?_⟩ <;> intro last hlast <;> simp_all
  | some last =>
    have hne : prev ≠ [] := by
      intro h; subst h; simp at hp
    rw [mergeLiveKline_eq prev k last hp]
    refine ⟨?_, ?_, ?_, ?_⟩
    · intro hlen
      split_ifs with h1 h2
      · simp [List.length_dropLast]; omega
      · rw [List.length_append] at h2
        simp only [List.length_tail, List.length_append, List.length_singleton]
        omega
      · rw [List.length_append] at h2
        rw [List.length_append]
        simp at h2 ⊢
        omega
    · intro l hl heq
      rw [Option.some_inj] at hl; subst hl
      rw [if_pos heq]
    · intro l hl hlt hlen
      rw [Option.some_inj] at hl; subst hl
      rw [if_neg (by omega), if_neg (by rw [List.length_append]; simp; omega)]
    · intro l hl hlt hlen
      rw [Option.some_inj] at hl; subst hl
      rw [if_neg (by omega), if_pos (by rw [List.length_append]; simp; omega)]
      cases prev with
      | nil => exact absurd rfl hne
      | cons a as => simp

/-- C4 witness: a one-bar buffer with a strictly newer update appends. -/
theorem mergeLiveKline_spec_witness :
    mergeLiveKline [mkBar 100] (mkBar 200) = [mkBar 100] ++ [mkBar 200] :=
  (mergeLiveKline_spec [mkBar 100] (mkBar 200)).2.2.1 (mkBar 100) (by decide)
    (by decide) (by decide)

/-- C10.  The merge appends every update whose openTime differs from the
last bar's (the single `drop` accounts for the 2000-cap trim), including
strictly older updates; concretely, merging openTime 150 into the
ascending buffer [100, 200] appends it and breaks the ascending order. -/
theorem merge_append_unordered :
    (∀ (prev : List Kline) (k last : Kline), prev.getLast? = some last →
      k.openTime ≠ last.openTime → prev.length ≤ 2000 →
      mergeLiveKline prev k = (prev ++ [k]).drop (prev.length + 1 - 2000)) ∧
    (ascendingBars barsAsc ∧
      mergeLiveKline barsAsc (mkBar 150) = barsAsc ++ [mkBar 150] ∧
      ¬ ascendingBars (mergeLiveKline barsAsc (mkBar 150))) := by
  constructor
  · intro prev k last hp hne hlen
    rw [mergeLiveKline_eq prev k last hp, if_neg hne]
    by_cases h : 2000 < (prev ++ [k]).length
    · rw [if_pos h]
      rw [List.length_append] at h
      simp only [List.length_singleton] at h
      have he : prev.length + 1 - 2000 = 1 := by omega
      rw [he, ← List.drop_one]
    · rw [if_neg h]
      rw [List.length_append] at h
      simp only [List.length_singleton] at h
      have he : prev.length + 1 - 2000 = 0 := by omega
      rw [he, List.drop_zero]
  · exact ⟨by decide, by decide, by decide⟩

/-- C10 witness: the append equation applied to the concrete out-of-order
update. -/
theorem merge_append_unordered_witness :
    mergeLiveKline barsAsc (mkBar 150)
      = (barsAsc ++ [mkBar 150]).drop (barsAsc.length + 1 - 2000) :=
  merge_append_unordered.1 barsAsc (mkBar 150) (mkBar 200) (by decide) (by decide)
    (by decide)

/-! ## C8: auto Y-range -/

theorem listMaxQ_mem : ∀ l : List ℚ, l ≠ [] → listMaxQ l ∈ l := by
  intro l
  induction l with
  | nil => intro h; exact absurd rfl h
  | cons x xs ih =>
    intro _
    cases xs with
    | nil => simp [listMaxQ]
    | cons y ys =>
      simp only [listMaxQ]
      rcases max_cases x (listMaxQ (y :: ys)) with ⟨h, _⟩ | ⟨h, _⟩
      · rw [h]; exact List.mem_cons_self x _
      · rw [h]; exact List.mem_cons_of_mem _ (ih (by simp))

theorem le_listMaxQ : ∀ (l : List ℚ) (x : ℚ), x ∈ l → x ≤ listMaxQ l := by
  intro l
  induction l with
  | nil => intro x hx; simp at hx
  | cons a xs ih =>
    intro x hx
    cases xs with
    | nil => simp at hx; subst hx; simp [listMaxQ]
    | cons y ys =>
      simp only [listMaxQ]
      rcases List.mem_cons.mp hx with rfl | hmem
      · exact le_max_left _ _
      · exact le_trans (ih x hmem) (le_max_right _ _)

theorem listMinQ_mem : ∀ l : List ℚ, l ≠ [] → listMinQ l ∈ l := by
  intro l
  induction l with
  | nil => intro h; exact absurd rfl h
  | cons x xs ih =>
    intro _
    cases xs with
    | nil => simp [listMinQ]
    | cons y ys =>
      simp only [listMinQ]
      rcases min_cases x (listMinQ (y :: ys)) with ⟨h, _⟩ | ⟨h, _⟩
      · rw [h]; exact List.mem_cons_self x _
      · rw [h]; exact List.mem_cons_of_mem _ (ih (by simp))

theorem listMinQ_le : ∀ (l : List ℚ) (x : ℚ), x ∈ l → listMinQ l ≤ x := by
  intro l
  induction l with
  | nil => intro x hx; simp at hx
  | cons a xs ih =>
    intro x hx
    cases xs with
    | nil => simp at hx; subst hx; simp [listMinQ]
    | cons y ys =>
      simp only [listMinQ]
      rcases List.mem_cons.mp hx with rfl | hmem
      · exact min_le_left _ _
      · exact le_trans (min_le_right _ _) (ih x hmem)

/-- C8.  Concretely: for visible highs [10, 12, 9] and lows [8, 7, 11] the
auto range is (6.75, 12.25).  Generally: in auto-Y mode (on a non-empty
visible slice) the rendered range is the true minimum of visible lows
minus pad and the true maximum of visible highs plus pad, where
`pad = (max - min) * 0.05`, or `1` when that product is zero. -/
theorem auto_y_range_spec :
    drawPriceRange data3 st3 = (27/4, 49/4) ∧
    (∀ (data : List Kline) (st : ChartState), st.autoY = true →
      drawViewData data st ≠ [] →
      ∃ m M : ℚ,
        m ∈ (drawViewData data st).map Kline.low ∧
        (∀ y ∈ (drawViewData data st).map Kline.low, m ≤ y) ∧
        M ∈ (drawViewData data st).map Kline.high ∧
        (∀ y ∈ (drawViewData data st).map Kline.high, y ≤ M) ∧
        drawPriceRange data st =
          (m - (if (M - m) * (5/100) = 0 then 1 else (M - m) * (5/100)),
           M + (if (M - m) * (5/100) = 0 then 1 else (M - m) * (5/100)))) := by
  constructor
  · decide
  · intro data st hauto hne
    refine ⟨listMinQ ((drawViewData data st).map Kline.low),
            listMaxQ ((drawViewData data st).map Kline.high), ?_, ?_, ?_, ?_, ?_⟩
    · exact listMinQ_mem _ (by simpa using hne)
    · intro y hy; exact listMinQ_le _ y hy
    · exact listMaxQ_mem _ (by simpa using hne)
    · intro y hy; exact le_listMaxQ _ y hy
    · simp only [drawPriceRange, hauto]
      simp

/-- C8 witness: the general auto-Y formula applied to the example bars. -/
theorem auto_y_range_spec_witness :
    ∃ m M : ℚ,
      m ∈ (drawViewData data3 st3).map Kline.low ∧
      (∀ y ∈ (drawViewData data3 st3).map Kline.low, m ≤ y) ∧
      M ∈ (drawViewData data3 st3).map Kline.high ∧
      (∀ y ∈ (drawViewData data3 st3).map Kline.high, y ≤ M) ∧
      drawPriceRange data3 st3 =
        (m - (if (M - m) * (5/100) = 0 then 1 else (M - m) * (5/100)),
         M + (if (M - m) * (5/100) = 0 then 1 else (M - m) * (5/100))) :=
  auto_y_range_spec.2 data3 st3 rfl (by decide)


/-! ## C3: zoom round-trip -/

/-- C3 (counterexample).  With 200 bars, startIndex 100, visibleCount 100,
width 900: `zoom(0.105, 10)` then `zoom(1/0.105, 10)` ends with
visibleCount 105 (off by 5 from 100) and moves the bar under pixel 10
from index 100 to index 95 (off by 5): both halves of the claimed
round-trip bound fail. -/
theorem zoom_roundtrip_claim_false :
    (performZoomGlobal 900 data200
        (performZoomGlobal 900 data200 stZoom (21/200) (some 10))
        (200/21) (some 10)).visibleCount = 105 ∧
    stZoom.visibleCount = 100 ∧
    barIndexAtPixel 900 data200
        (performZoomGlobal 900 data200
          (performZoomGlobal 900 data200 stZoom (21/200) (some 10))
          (200/21) (some 10)) 10 = 95 ∧
    barIndexAtPixel 900 data200 stZoom 10 = 100 ∧
    ¬ ((performZoomGlobal 900 data200
          (performZoomGlobal 900 data200 stZoom (21/200) (some 10))
          (200/21) (some 10)).visibleCount - stZoom.visibleCount ≤ 1 ∧
        stZoom.visibleCount - (performZoomGlobal 900 data200
          (performZoomGlobal 900 data200 stZoom (21/200) (some 10))
          (200/21) (some 10)).visibleCount ≤ 1) ∧
    ¬ (barIndexAtPixel 900 data200
          (performZoomGlobal 900 data200
            (performZoomGlobal 900 data200 stZoom (21/200) (some 10))
            (200/21) (some 10)) 10
          - barIndexAtPixel 900 data200 stZoom 10 ≤ 1 ∧
        barIndexAtPixel 900 data200 stZoom 10
          - barIndexAtPixel 900 data200
              (performZoomGlobal 900 data200
                (performZoomGlobal 900 data200 stZoom (21/200) (some 10))
                (200/21) (some 10)) 10 ≤ 1) := by
  refine ⟨?_, ?_, ?_, ?_, ?_, ?_⟩ <;> decide

/-- The visibleCount produced by a zoom, extracted from the definition. -/
theorem performZoomGlobal_visibleCount (width : ℚ) (data : List Kline)
    (st : ChartState) (scale : ℚ) (anchorX : Option ℚ) :
    (performZoomGlobal width data st scale anchorX).visibleCount
      = max 10 (min (data.length : ℤ)
          (max 10 (min 5000 (jsRound ((st.visibleCount : ℚ) * scale))))) := by
  simp [performZoomGlobal, clampViewportLocal]

/-- Rounding a value within less than half a unit of the integer `v`
recovers `v`. -/
theorem jsRound_near (v : ℤ) (q : ℚ) (h1 : (v : ℚ) - 1/2 < q) (h2 : q < (v : ℚ) + 1/2) :
    jsRound q = v := by
  unfold jsRound
  rw [Int.floor_eq_iff]
  constructor
  · linarith
  · linarith

/-- C3 (amended).  The round-trip restores visibleCount exactly for the
wheel factor s = 1.15, provided neither clamp binds: visibleCount ≥ 10
and the zoomed-out count round(v * 1.15) within both the 5000 cap and the
data length.  (Under clamping, both round-trip guarantees fail, as the
counterexample shows.) -/
theorem zoom_roundtrip_fixed_factor (width : ℚ) (data : List Kline)
    (st : ChartState) (anchorX : Option ℚ)
    (h10 : 10 ≤ st.visibleCount)
    (hlen : jsRound ((st.visibleCount : ℚ) * (23/20)) ≤ (data.length : ℤ))
    (h5000 : jsRound ((st.visibleCount : ℚ) * (23/20)) ≤ 5000) :
    (performZoomGlobal width data
        (performZoomGlobal width data st (23/20) anchorX) (20/23) anchorX).visibleCount
      = st.visibleCount := by
  set v := st.visibleCount with hv
  set r1 := jsRound ((v : ℚ) * (23/20)) with hr1
  have hvr1 : v ≤ r1 := by
    rw [hr1]
    unfold jsRound
    rw [Int.le_floor]
    have : (10 : ℚ) ≤ (v : ℚ) := by exact_mod_cast h10
    linarith
  have hfl1 : (r1 : ℚ) ≤ (v : ℚ) * (23/20) + 1/2 := by
    rw [hr1]; exact Int.floor_le _
  have hfl2 : (v : ℚ) * (23/20) + 1/2 < (r1 : ℚ) + 1 := by
    rw [hr1]; exact Int.lt_floor_add_one _
  have hz1 : (performZoomGlobal width data st (23/20) anchorX).visibleCount = r1 := by
    rw [performZoomGlobal_visibleCount, ← hv, ← hr1]
    omega
  rw [performZoomGlobal_visibleCount, hz1]
  have hr2 : jsRound ((r1 : ℚ) * (20/23)) = v := by
    apply jsRound_near
    · have : (v : ℚ) * (23/20) - 1/2 < (r1 : ℚ) := by linarith
      nlinarith
    · nlinarith
  rw [hr2]
  omega

/-- C3 witness: round trip at visibleCount 20 on 30 bars, center anchor. -/
theorem zoom_roundtrip_fixed_factor_witness :
    (performZoomGlobal 900 data30
        (performZoomGlobal 900 data30
          { initialState data30 with visibleCount := 20 } (23/20) none)
        (20/23) none).visibleCount
      = ({ initialState data30 with visibleCount := 20 } : ChartState).visibleCount :=
  zoom_roundtrip_fixed_factor 900 data30
    { initialState data30 with visibleCount := 20 } none (by decide) (by decide)
    (by decide)

/-! ## C6: vertical-range gestures leave the horizontal viewport alone -/

/-- C6.  The two vertical-range gestures never touch `startIndex` or
`visibleCount`: (i) wheel with the alt modifier only rewrites the Y-range
and clears auto-Y; (ii) a pointer press in the right price-axis gutter
(non-empty visible slice) only captures resize anchors, clears auto-Y and
enters ResizingY; (iii) a drag move while ResizingY only rewrites the
Y-range (for every model `expf` of `Math.exp`). -/
theorem vertical_gestures_frame :
    (∀ (width height : ℚ) (data : List Kline) (ev : WheelEvent) (st : ChartState),
      ev.altKey = true →
      (handleWheel width height data ev st).startIndex = st.startIndex ∧
      (handleWheel width height data ev st).visibleCount = st.visibleCount ∧
      (handleWheel width height data ev st).autoY = false) ∧
    (∀ (width height : ℚ) (data : List Kline) (rectLeft rectTop : ℚ)
      (ev : MouseEvent) (st : ChartState),
      width - PADDING_RIGHT ≤ ev.clientX - rectLeft →
      viewSlice data st.startIndex (max 10 (min (data.length : ℤ) st.visibleCount)) ≠ [] →
      (handleMouseDown width height data rectLeft rectTop ev st).startIndex = st.startIndex ∧
      (handleMouseDown width height data rectLeft rectTop ev st).visibleCount = st.visibleCount ∧
      (handleMouseDown width height data rectLeft rectTop ev st).autoY = false ∧
      (handleMouseDown width height data rectLeft rectTop ev st).isResizingY = true) ∧
    (∀ (width height : ℚ) (data : List Kline) (expf : ℚ → ℚ)
      (ev : MouseEvent) (st : ChartState),
      st.isDragging = true → st.isResizingY = true →
      (handleMouseMove width height data expf ev st).startIndex = st.startIndex ∧
      (handleMouseMove width height data expf ev st).visibleCount = st.visibleCount ∧
      (handleMouseMove width height data expf ev st).autoY = st.autoY) := by
  refine ⟨?_, ?_, ?_⟩
  · intro w h data ev st halt
    simp [handleWheel, halt]
  · intro w h data rL rT ev st hx hne
    have hlen : (viewSlice data st.startIndex
        (max 10 (min (data.length : ℤ) st.visibleCount))).length ≠ 0 := by
      simpa [List.length_eq_zero] using hne
    simp [handleMouseDown, hx, hlen]
  · intro w h data expf ev st hd hr
    simp [handleMouseMove, hd, hr]

/-- C6 witness: the three gesture conclusions at concrete inputs. -/
theorem vertical_gestures_frame_witness :
    (handleWheel 900 480 data4 wheelAltEv (initialState data4)).startIndex
        = (initialState data4).startIndex ∧
    (handleMouseDown 900 480 data4 0 0 downEv (initialState data4)).autoY = false ∧
    (handleMouseMove 900 480 data4 (fun q => q) downEv stDrag).visibleCount
        = stDrag.visibleCount :=
  ⟨(vertical_gestures_frame.1 900 480 data4 wheelAltEv (initialState data4) rfl).1,
   (vertical_gestures_frame.2.1 900 480 data4 0 0 downEv (initialState data4)
      (by decide) (by decide)).2.2.1,
   (vertical_gestures_frame.2.2 900 480 data4 (fun q => q) downEv stDrag rfl rfl).2.1⟩

/-! ## C7: 1-second aggregation -/

/-- The bucket loop threads each bucket close into the next bucket open. -/
theorem aggLoop_chain (trades : List AggTrade) :
    ∀ (ss : List ℤ) (pc : Option ℚ) (i : ℕ) (a b : Kline),
      (aggLoop trades pc ss).get? i = some a →
      (aggLoop trades pc ss).get? (i + 1) = some b →
      b.openP = a.close := by
  intro ss
  induction ss with
  | nil => intro pc i a b ha _; simp [aggLoop] at ha
  | cons s rest ih =>
    intro pc i a b ha hb
    cases i with
    | zero =>
      simp only [aggLoop, List.get?_cons_zero, Option.some_inj] at ha
      cases rest with
      | nil => simp [aggLoop] at hb
      | cons s2 rest2 =>
        simp only [aggLoop, List.get?_cons_succ, List.get?_cons_zero,
          Option.some_inj] at hb
        subst ha
        subst hb
        simp [mkBucketKline]
    | succ j =>
      simp only [aggLoop, List.get?_cons_succ] at ha hb
      exact ih _ j a b ha hb

/-- C7.  Concretely: the example trades collapse to exactly the one
bucket `k1000` (openTime 1000, high 11, low 9, close 9, volume 6,
3 trades).  Generally: each bucket opens at the previous bucket close,
and the first bucket opens at its earliest trade price. -/
theorem aggregate_one_second_spec :
    aggregateToOneSecondKlines tr3 = [k1000] ∧
    (∀ (trades : List AggTrade) (i : ℕ) (a b : Kline),
      (aggregateToOneSecondKlines trades).get? i = some a →
      (aggregateToOneSecondKlines trades).get? (i + 1) = some b →
      b.openP = a.close) ∧
    (∀ (trades : List AggTrade) (s : ℤ) (rest : List ℤ),
      bucketKeys trades = s :: rest → trades.length ≠ 0 →
      ((aggregateToOneSecondKlines trades).head?).map Kline.openP
        = some (((bucketTrades trades s).map AggTrade.price).headD 0)) := by
  refine ⟨by decide, ?_, ?_⟩
  · intro trades i a b ha hb
    by_cases hz : trades.length = 0
    · simp [aggregateToOneSecondKlines, hz] at ha
    · unfold aggregateToOneSecondKlines at ha hb
      rw [if_neg hz] at ha hb
      exact aggLoop_chain trades (bucketKeys trades) none i a b ha hb
  · intro trades s rest hkeys hz
    unfold aggregateToOneSecondKlines
    rw [if_neg hz, hkeys]
    simp [aggLoop, mkBucketKline]

/-- C7 witness: on the two-bucket trades `tr2`, the second bucket opens
at the first bucket close. -/
theorem aggregate_one_second_spec_witness :
    (aggregateToOneSecondKlines tr2).get? 0 = some k1000b ∧
    (aggregateToOneSecondKlines tr2).get? 1 = some k2000b ∧
    k2000b.openP = k1000b.close :=
  ⟨by decide, by decide,
   aggregate_one_second_spec.2.1 tr2 0 k1000b k2000b (by decide) (by decide)⟩

end
